import Mathlib

/-!
Shallow embedding of kube-ecr-refresher (Go) for specification checking.

Sources embedded:
- internal/refresher/refresher.go : the Amazon ECR credential refresher
  (refresh, Get, and the slot-update step of Run).
- main package (createOrUpdateSecret, updateSecret, createOrUpdateSecrets,
  buildNamespacesList) : the per-namespace secret reconciler.

Modelling conventions:
- Bytes are Nat values below 256; byte slices are List Nat; Go strings that
  only carry ASCII payloads are converted with bytesToString (Char.ofNat per
  byte, which agrees with Go's string conversion on ASCII data).
- The Kubernetes API server is modelled by a Cluster state (an association
  list of secrets keyed by namespace and name) together with an injected
  create fault used to exercise non-already-exists creation failures.
- Every embedded operation additionally returns the list of API operations
  it issued (Op), so that statements about "no update call" or "exactly one
  update call" are about the recorded trace.
- The goroutine fan-out of createOrUpdateSecrets is linearised as a fold in
  namespace order; the claims settled here do not depend on interleaving.
-/

namespace KubeEcrRefresher

/-! ## Base64 (Go encoding/base64 StdEncoding) -/

/-- Value of a standard base64 alphabet character, none for anything else. -/
def b64Val (c : Char) : Option Nat :=
  if 'A' ≤ c ∧ c ≤ 'Z' then some (c.toNat - 65)
  else if 'a' ≤ c ∧ c ≤ 'z' then some (c.toNat - 97 + 26)
  else if '0' ≤ c ∧ c ≤ '9' then some (c.toNat - 48 + 52)
  else if c = '+' then some 62
  else if c = '/' then some 63
  else none

/-- Standard base64 alphabet character for a 6-bit value. -/
def b64Char (n : Nat) : Char :=
  if n < 26 then Char.ofNat (65 + n)
  else if n < 52 then Char.ofNat (97 + (n - 26))
  else if n < 62 then Char.ofNat (48 + (n - 52))
  else if n = 62 then '+'
  else '/'

/-- Decode base64 characters four at a time into bytes; '=' padding is only
accepted at the very end. Mirrors Go base64.StdEncoding.DecodeString, which
requires the (newline-stripped) input length to be a multiple of four. -/
def base64DecodeCore : List Char → Option (List Nat)
  | [] => some []
  | a :: b :: c :: d :: rest =>
    match b64Val a, b64Val b with
    | some va, some vb =>
      if c = '=' then
        if d = '=' ∧ rest = [] then some [va * 4 + vb / 16]
        else none
      else
        match b64Val c with
        | some vc =>
          if d = '=' then
            if rest = [] then some [va * 4 + vb / 16, (vb % 16) * 16 + vc / 4]
            else none
          else
            match b64Val d with
            | some vd =>
              (base64DecodeCore rest).map
                (fun t => (va * 4 + vb / 16) :: ((vb % 16) * 16 + vc / 4) ::
                          ((vc % 4) * 64 + vd) :: t)
            | none => none
        | none => none
    | _, _ => none
  | _ => none

/-- Go base64.StdEncoding.DecodeString: newline characters are ignored,
anything else invalid (or a length not a multiple of four) is an error. -/
def base64Decode (s : String) : Option (List Nat) :=
  base64DecodeCore (s.data.filter (fun c => c ≠ '\r' ∧ c ≠ '\n'))

/-- Encode bytes as base64 characters, three bytes at a time. -/
def base64EncodeCore : List Nat → List Char
  | [] => []
  | [a] => [b64Char (a / 4), b64Char ((a % 4) * 16), '=', '=']
  | [a, b] => [b64Char (a / 4), b64Char ((a % 4) * 16 + b / 16), b64Char ((b % 16) * 4), '=']
  | a :: b :: c :: rest =>
    b64Char (a / 4) :: b64Char ((a % 4) * 16 + b / 16) ::
    b64Char ((b % 16) * 4 + c / 64) :: b64Char (c % 64) :: base64EncodeCore rest

/-- ASCII string to bytes. -/
def stringToBytes (s : String) : List Nat := s.data.map Char.toNat

/-- Bytes (ASCII) to string, as Go string(v) on ASCII data. -/
def bytesToString (l : List Nat) : String := String.mk (l.map Char.ofNat)

/-- Go base64.StdEncoding.EncodeToString on an ASCII string. -/
def base64Encode (s : String) : String := String.mk (base64EncodeCore (stringToBytes s))

/-! ## Go strings helpers -/

/-- Go strings.Split for a single-character separator, over element lists:
splits around every occurrence of the separator, keeping empty fields, and
returns one field even for empty input. -/
def splitSep {α : Type} [DecidableEq α] (sep : α) : List α → List (List α)
  | [] => [[]]
  | c :: cs =>
    match splitSep sep cs with
    | [] => [[c]]
    | t :: ts => if c = sep then [] :: t :: ts else (c :: t) :: ts

/-- Go strings.TrimPrefix: remove one leading occurrence of p from s, or
return s verbatim when p is not a leading substring. Stated over the
character lists so that it evaluates by kernel reduction. -/
def trimPre (s p : String) : String :=
  if p.data.isPrefixOf s.data then String.mk (s.data.drop p.data.length) else s

/-! ## internal/refresher/refresher.go -/

/-- One entry of ecr.GetAuthorizationTokenOutput.AuthorizationData.
expiresAt is a Unix timestamp in seconds. -/
structure AuthorizationData where
  authorizationToken : String
  expiresAt : Int
  proxyEndpoint : String
deriving DecidableEq

/-- The successful result of ecrClient.GetAuthorizationToken. -/
structure TokenResponse where
  authorizationData : List AuthorizationData
deriving DecidableEq

/-- AmazonECRAuthenticationData: wrapper for authentication data for an
Amazon ECR registry (refresher.go). -/
structure AmazonECRAuthenticationData where
  expiration : Int
  Password : String
  Server : String
  Username : String
deriving DecidableEq

/-- The distinct failure shapes of refresh (refresher.go lines 83-107):
a result count other than one, a base64 decoding failure (the error value
returned by DecodeString is propagated as-is), and the explicit
"AWS returned a malformed token" error. -/
inductive RefreshError
  | unexpectedResultCount (got : Nat)
  | base64DecodeError
  | malformedToken
deriving DecidableEq

/-- Body of refresh once the single authorization record is in hand
(refresher.go lines 91-106): trim one https:// prefix off the proxy
endpoint, base64-decode the token, split the decoded bytes on every colon
(byte 58), and require exactly two parts. -/
def refreshOne (a : AuthorizationData) : Except RefreshError AmazonECRAuthenticationData :=
  match base64Decode a.authorizationToken with
  | none => .error .base64DecodeError
  | some v =>
    match splitSep 58 v with
    | [u, p] =>
      .ok { expiration := a.expiresAt
          , Server := trimPre a.proxyEndpoint "https://"
          , Password := bytesToString p
          , Username := bytesToString u }
    | _ => .error .malformedToken

/-- refresh (refresher.go lines 83-107), given the Token Source response:
anything other than exactly one authorization record is rejected up front
with the "expected a single result" error carrying the actual count. -/
def refresh (resp : TokenResponse) : Except RefreshError AmazonECRAuthenticationData :=
  match resp.authorizationData with
  | [a] => refreshOne a
  | l => .error (.unexpectedResultCount l.length)

/-- Get (refresher.go lines 54-59): non-blocking read of the credential
slot; an empty slot is the "no Amazon ECR authentication data currently
exists" error. -/
def Get (current : Option AmazonECRAuthenticationData) :
    Except String AmazonECRAuthenticationData :=
  match current with
  | some d => .ok d
  | none => .error "no Amazon ECR authentication data currently exists"

/-- One iteration of Run (refresher.go lines 62-80): on refresh failure the
slot is cleared and the loop holds for one minute; on success the slot is
replaced and the loop holds until one minute before the new expiration.
The iteration overwrites the slot without reading it, so the slot value
before the iteration (current) does not influence the result. Returns the
new slot value and the instant (Unix seconds) to sleep until. -/
def runStep (_current : Option AmazonECRAuthenticationData)
    (res : Except RefreshError AmazonECRAuthenticationData) (now : Int) :
    Option AmazonECRAuthenticationData × Int :=
  match res with
  | .error _ => (none, now + 60)
  | .ok d => (some d, d.expiration - 60)

/-! ## Kubernetes secrets model (main package collaborator) -/

/-- A corev1.Secret as far as the reconciler touches it: its name, its
namespace (nsName, since namespace is a Lean keyword), its data payload
(map of key to byte payload, modelled as an association list with a single
generator-written key), and resourceVersion standing in for every other
server-set metadata field the reconciler never writes. -/
structure Secret where
  name : String
  nsName : String
  data : List (String × String)
  resourceVersion : String
deriving DecidableEq

/-- Keys of the cluster secret store: (namespace, secret name). -/
abbrev StoreKey := String × String

/-- The cluster-side secret store plus an injected creation fault:
when createFault is set, every Create call fails with that message
(a non-already-exists error such as a forbidden response). -/
structure Cluster where
  store : List (StoreKey × Secret)
  createFault : Option String
deriving DecidableEq

/-- Errors returned by the cluster API, as distinguished by the code
(errors.IsAlreadyExists versus anything else). -/
inductive ApiError
  | alreadyExists
  | notFound
  | other (msg : String)
deriving DecidableEq

/-- The API operations the reconciler can issue against the cluster. -/
inductive Op
  | create (ns : String) (s : Secret)
  | get (ns name : String)
  | update (ns : String) (s : Secret)
  | listNamespaces
deriving DecidableEq

/-- First secret stored under a key, if any. -/
def lookupStore : List (StoreKey × Secret) → StoreKey → Option Secret
  | [], _ => none
  | e :: rest, k => if e.1 = k then some e.2 else lookupStore rest k

/-- Replace the secret under a key, or append it when absent. -/
def setStore : List (StoreKey × Secret) → StoreKey → Secret → List (StoreKey × Secret)
  | [], k, s => [(k, s)]
  | e :: rest, k, s => if e.1 = k then (k, s) :: rest else e :: setStore rest k s

/-- Secrets(ns).Create: fails with the injected fault when one is set,
fails with already-exists when the key is taken, otherwise stores the
secret with its namespace filled in by the server. -/
def clusterCreate (k : Cluster) (ns : String) (s : Secret) : Except ApiError Cluster :=
  match k.createFault with
  | some m => .error (.other m)
  | none =>
    match lookupStore k.store (ns, s.name) with
    | some _ => .error .alreadyExists
    | none => .ok { k with store := setStore k.store (ns, s.name) { s with nsName := ns } }

/-- Secrets(ns).Get: returns the stored secret or a not-found error. -/
def clusterGet (k : Cluster) (ns name : String) : Except ApiError Secret :=
  match lookupStore k.store (ns, name) with
  | some s => .ok s
  | none => .error .notFound

/-- Secrets(ns).Update: replaces an existing secret, not-found otherwise. -/
def clusterUpdate (k : Cluster) (ns : String) (s : Secret) : Except ApiError Cluster :=
  match lookupStore k.store (ns, s.name) with
  | some _ => .ok { k with store := setStore k.store (ns, s.name) s }
  | none => .error .notFound

/-! ## main package (reconciler) -/

/-- The dockercfg-style JSON payload written by kubectl's
SecretForDockerRegistryGeneratorV1 (an external collaborator): a
deterministic function of server, username, password and the synthetic
email, embedding the base64 username:password composite auth token. -/
def dockerConfigJSONPayload (server username password email : String) : String :=
  "\x7b\"auths\":\x7b\"" ++ server ++ "\":\x7b\"username\":\"" ++ username ++
  "\",\"password\":\"" ++ password ++ "\",\"email\":\"" ++ email ++
  "\",\"auth\":\"" ++ base64Encode (username ++ ":" ++ password) ++ "\"\x7d\x7d\x7d"

/-- The Secret object built in createOrUpdateSecret (main, lines 66-78)
through SecretForDockerRegistryGeneratorV1: named after the registry
server, carrying the docker-registry credentials payload under a single
data key; the namespace is assigned by the server on creation. -/
def secretForDockerRegistry (d : AmazonECRAuthenticationData) : Secret :=
  { name := d.Server
  , nsName := ""
  , data := [(".dockerconfigjson", dockerConfigJSONPayload d.Server d.Username d.Password "none")]
  , resourceVersion := "" }

/-- updateSecret (main, lines 178-194): fetch the existing secret; if its
data already equals the new data, do nothing; otherwise overwrite only the
fetched object's data field and issue one Update in the fetched object's
namespace. Returns the Go error value, the new cluster state, and the
trace of issued operations. -/
def updateSecret (k : Cluster) (targetNamespace : String) (s : Secret) :
    Except ApiError Unit × Cluster × List Op :=
  match clusterGet k targetNamespace s.name with
  | .error e => (.error e, k, [Op.get targetNamespace s.name])
  | .ok v =>
    if v.data = s.data then
      (.ok (), k, [Op.get targetNamespace s.name])
    else
      let v' : Secret := { v with data := s.data }
      match clusterUpdate k v'.nsName v' with
      | .error e => (.error e, k, [Op.get targetNamespace s.name, Op.update v'.nsName v'])
      | .ok k' => (.ok (), k', [Op.get targetNamespace s.name, Op.update v'.nsName v'])

/-- createOrUpdateSecret (main, lines 66-90): build the secret and attempt
to create it; on an already-exists error fall back to updateSecret; on any
other creation error the code returns nil, so that error is dropped
(main, line 86). The generator itself is total here (its own validation
never fires on the fields this program passes). -/
def createOrUpdateSecret (k : Cluster) (targetNamespace : String)
    (d : AmazonECRAuthenticationData) : Except ApiError Unit × Cluster × List Op :=
  let s := secretForDockerRegistry d
  match clusterCreate k targetNamespace s with
  | .error e =>
    if e = .alreadyExists then
      match updateSecret k targetNamespace s with
      | (r, k', ops) => (r, k', Op.create targetNamespace s :: ops)
    else
      (.ok (), k, [Op.create targetNamespace s])
  | .ok k' => (.ok (), k', [Op.create targetNamespace s])

/-- corev1.NamespaceAll, the empty selector meaning every namespace. -/
def NamespaceAll : String := ""

/-- Go strings.Split on commas, over strings. -/
def stringsSplitComma (s : String) : List String :=
  (splitSep ',' s.data).map String.mk

/-- buildNamespacesList (main, lines 41-54): a selector other than
NamespaceAll is split verbatim on commas without consulting the cluster;
the NamespaceAll selector lists every namespace known to the cluster
(clusterNamespaces is the outcome of that List call, which may fail).
The trace records whether the cluster was queried. -/
def buildNamespacesList (clusterNamespaces : Except ApiError (List String))
    (targetNamespaces : String) : Except ApiError (List String) × List Op :=
  if targetNamespaces ≠ NamespaceAll then
    (.ok (stringsSplitComma targetNamespaces), [])
  else
    (clusterNamespaces, [Op.listNamespaces])

/-- The namespace fan-out of createOrUpdateSecrets (main, lines 163-174),
linearised in namespace order; each task's error is only logged, so the
fold drops the per-namespace result values. -/
def reconcileAll (k : Cluster) (l : List String) (d : AmazonECRAuthenticationData) :
    Cluster × List Op :=
  match l with
  | [] => (k, [])
  | n :: rest =>
    match createOrUpdateSecret k n d with
    | (_, k', ops) =>
      match reconcileAll k' rest d with
      | (k'', ops') => (k'', ops ++ ops')

/-- createOrUpdateSecrets (main, lines 149-175): read the refresher slot;
if empty, log and abort before anything else; then build the namespace
list, aborting on failure; then fan out createOrUpdateSecret over the
namespaces. Returns the final cluster state and the full operation trace
of the cycle. -/
def createOrUpdateSecrets (current : Option AmazonECRAuthenticationData)
    (clusterNamespaces : Except ApiError (List String))
    (k : Cluster) (targetNamespaces : String) : Cluster × List Op :=
  match Get current with
  | .error _ => (k, [])
  | .ok d =>
    match buildNamespacesList clusterNamespaces targetNamespaces with
    | (.error _, lops) => (k, lops)
    | (.ok l, lops) =>
      match reconcileAll k l d with
      | (k', ops) => (k', lops ++ ops)

/-- Store well-formedness: every stored secret records the namespace and
name it is keyed under (true of every state the API model produces). -/
def StoreWF (st : List (StoreKey × Secret)) : Prop :=
  ∀ e ∈ st, e.2.nsName = e.1.1 ∧ e.2.name = e.1.2

instance (st : List (StoreKey × Secret)) : Decidable (StoreWF st) :=
  List.decidableBAll _ st

/-- True exactly on Update operations, to state write counts. -/
def isUpdateOp : Op → Bool
  | .update _ _ => true
  | _ => false

/-! ## Helper lemmas -/

theorem splitSep_ne_nil {α : Type} [DecidableEq α] (sep : α) (l : List α) :
    splitSep sep l ≠ [] := by
  cases l with
  | nil => simp [splitSep]
  | cons c cs =>
    rcases h : splitSep sep cs with _ | ⟨t, ts⟩
    · simp [splitSep, h]
    · by_cases hc : c = sep <;> simp [splitSep, h, hc]

theorem splitSep_length {α : Type} [DecidableEq α] (sep : α) (l : List α) :
    (splitSep sep l).length = l.count sep + 1 := by
  induction l with
  | nil => simp [splitSep]
  | cons c cs ih =>
    rcases h : splitSep sep cs with _ | ⟨t, ts⟩
    · exact absurd h (splitSep_ne_nil sep cs)
    · rw [h] at ih
      simp only [List.length_cons] at ih
      by_cases hc : c = sep
      · subst hc
        simp only [splitSep, h, if_pos rfl, List.length_cons, List.count_cons,
          beq_self_eq_true, if_true]
        omega
      · have hbeq1 : (c == sep) = false := by simp [hc]
        have hbeq2 : (sep == c) = false := by simp [Ne.symm hc]
        simp only [splitSep, h, if_neg hc, List.length_cons, List.count_cons,
          hbeq1, hbeq2, Bool.false_eq_true, if_false]
        omega

theorem lookupStore_setStore_self (st : List (StoreKey × Secret)) (key : StoreKey)
    (s : Secret) : lookupStore (setStore st key s) key = some s := by
  induction st with
  | nil => simp [setStore, lookupStore]
  | cons e rest ih =>
    by_cases h : e.1 = key
    · simp [setStore, h, lookupStore]
    · simp [setStore, h, lookupStore, ih]

theorem refreshOne_decode_none {a : AuthorizationData}
    (h : base64Decode a.authorizationToken = none) :
    refreshOne a = .error .base64DecodeError := by
  simp [refreshOne, h]

theorem refreshOne_two_parts {a : AuthorizationData} {v u p : List Nat}
    (h : base64Decode a.authorizationToken = some v)
    (hsp : splitSep 58 v = [u, p]) :
    refreshOne a = .ok { expiration := a.expiresAt
                       , Server := trimPre a.proxyEndpoint "https://"
                       , Password := bytesToString p
                       , Username := bytesToString u } := by
  simp [refreshOne, h, hsp]

theorem refreshOne_not_two_parts {a : AuthorizationData} {v : List Nat}
    (h : base64Decode a.authorizationToken = some v)
    (hsp : (splitSep 58 v).length ≠ 2) :
    refreshOne a = .error .malformedToken := by
  simp only [refreshOne, h]
  rcases hsp2 : splitSep 58 v with _ | ⟨u, _ | ⟨p, _ | ⟨x, t⟩⟩⟩
  · rfl
  · rfl
  · rw [hsp2] at hsp
    simp at hsp
  · rfl

theorem lookupStore_mem (st : List (StoreKey × Secret)) (key : StoreKey) (v : Secret)
    (h : lookupStore st key = some v) : (key, v) ∈ st := by
  induction st with
  | nil => simp [lookupStore] at h
  | cons e rest ih =>
    by_cases he : e.1 = key
    · simp only [lookupStore, if_pos he, Option.some.injEq] at h
      have : e = (key, v) := by
        cases e with
        | mk k2 s2 => simp_all
      simp [this]
    · simp only [lookupStore, if_neg he] at h
      exact List.mem_cons_of_mem _ (ih h)

/-! ## Concrete inputs used by the individual claims -/

/-- Credential used for the C1 scenario. -/
def c1Data : AmazonECRAuthenticationData :=
  { expiration := 1700000000, Password := "secret"
  , Server := "123.dkr.ecr.eu-west-1.amazonaws.com", Username := "AWS" }

/-- Cluster whose Create calls fail with a forbidden-style error. -/
def c1Cluster : Cluster := { store := [], createFault := some "secrets is forbidden" }

/-- Token Source response for the C7 scenario: one record, endpoint
without scheme, token base64 of AWS:secret, future expiry. -/
def c7Resp : TokenResponse :=
  { authorizationData :=
      [{ authorizationToken := "QVdTOnNlY3JldA=="
       , expiresAt := 1700000000
       , proxyEndpoint := "123.dkr.ecr.eu-west-1.amazonaws.com" }] }

/-! ## Claims -/

/-- Claim C1 (code bug): the spec requires any creation error other than
already-exists to be returned by createOrUpdate and surfaced as a logged
per-namespace error, but createOrUpdateSecret (main, line 86) returns nil
on such an error: here the Create call fails with a forbidden error, yet
the function reports success and records no further operation, so the
caller's per-namespace error log can never fire. -/
theorem c1_create_error_silently_dropped :
    clusterCreate c1Cluster "team-a" (secretForDockerRegistry c1Data) =
      .error (.other "secrets is forbidden") ∧
    createOrUpdateSecret c1Cluster "team-a" c1Data =
      (.ok (), c1Cluster, [Op.create "team-a" (secretForDockerRegistry c1Data)]) :=
  ⟨rfl, rfl⟩

/-- Claim C2: when the refresher slot is empty (Get signals not ready),
the cycle aborts before listing namespaces: the cluster state is unchanged
and the operation trace is empty (no listNamespaces, create, get or update
operations). -/
theorem c2_not_ready_cycle_no_ops (current : Option AmazonECRAuthenticationData)
    (clusterNamespaces : Except ApiError (List String)) (k : Cluster) (sel : String)
    (h : ∃ msg, Get current = .error msg) :
    createOrUpdateSecrets current clusterNamespaces k sel = (k, []) := by
  obtain ⟨msg, hm⟩ := h
  cases current with
  | none => rfl
  | some d => simp [Get] at hm

/-- Witness for C2 at a concrete empty slot. -/
theorem c2_not_ready_cycle_no_ops_witness :
    createOrUpdateSecrets none (.ok ["team-a", "team-b"])
        { store := [], createFault := none } NamespaceAll =
      ({ store := [], createFault := none }, []) :=
  c2_not_ready_cycle_no_ops none (.ok ["team-a", "team-b"])
    { store := [], createFault := none } NamespaceAll ⟨_, rfl⟩

/-- Claim C5: in every refresh-loop iteration that fails, the slot is
cleared regardless of the refresh outcome value, so Get signals not ready
afterwards even when a credential was previously set; in every iteration
that succeeds, the slot holds exactly the new credential and Get returns
it. -/
theorem c5_slot_cleared_on_failure_replaced_on_success
    (prev : Option AmazonECRAuthenticationData) (e : RefreshError)
    (d : AmazonECRAuthenticationData) (now : Int) :
    (runStep prev (.error e) now).1 = none ∧
    Get (runStep prev (.error e) now).1 =
      .error "no Amazon ECR authentication data currently exists" ∧
    (runStep prev (.ok d) now).1 = some d ∧
    Get (runStep prev (.ok d) now).1 = .ok d :=
  ⟨rfl, rfl, rfl, rfl⟩

/-- Claim C6: a selector other than NamespaceAll is split verbatim on
commas, independently of whatever the cluster would answer (no namespace
query is recorded); the NamespaceAll selector returns the cluster list and
records the query; and the selector team-a,team-b yields exactly those two
names. -/
theorem c6_selector_split_verbatim (cl cl' : Except ApiError (List String))
    (sel : String) :
    (sel = NamespaceAll → buildNamespacesList cl sel = (cl, [Op.listNamespaces])) ∧
    (sel ≠ NamespaceAll →
      buildNamespacesList cl sel = (.ok (stringsSplitComma sel), []) ∧
      buildNamespacesList cl sel = buildNamespacesList cl' sel) ∧
    buildNamespacesList cl "team-a,team-b" = (.ok ["team-a", "team-b"], []) := by
  refine ⟨fun h => ?_, fun h => ⟨?_, ?_⟩, ?_⟩
  · simp [buildNamespacesList, h]
  · simp [buildNamespacesList, h]
  · simp [buildNamespacesList, h]
  · have hne : "team-a,team-b" ≠ NamespaceAll := by decide
    simp only [buildNamespacesList, if_pos hne]
    have : stringsSplitComma "team-a,team-b" = ["team-a", "team-b"] := by decide
    rw [this]

/-- Witness for C6 at concrete selectors, one per branch. -/
theorem c6_selector_split_verbatim_witness :
    buildNamespacesList (.ok ["kube-system"]) NamespaceAll =
      (.ok ["kube-system"], [Op.listNamespaces]) ∧
    buildNamespacesList (.ok ["kube-system"]) "team-a,team-b" =
      (.ok ["team-a", "team-b"], []) :=
  ⟨(c6_selector_split_verbatim (.ok ["kube-system"]) (.ok ["kube-system"])
      NamespaceAll).1 rfl,
   ((c6_selector_split_verbatim (.ok ["kube-system"]) (.ok ["kube-system"])
      "team-a,team-b").2.1 (by decide)).1⟩

/-- Claim C7: on a response with exactly one record whose endpoint is
123.dkr.ecr.eu-west-1.amazonaws.com, whose token is base64 of AWS:secret
and whose expiry is in the future, refresh succeeds with exactly that
registry host, username AWS and password secret. -/
theorem c7_concrete_refresh_scenario :
    refresh c7Resp =
      .ok { expiration := 1700000000, Password := "secret"
          , Server := "123.dkr.ecr.eu-west-1.amazonaws.com", Username := "AWS" } := by
  rfl

/-- Claim C8: when the existing secret's payload differs from the fresh
one, updateSecret issues exactly one update call, and the updated object
is the fetched object with only its data field replaced: name, namespace
and server-set metadata (resourceVersion) are those of the fetched object. -/
theorem c8_update_preserves_other_fields (k : Cluster) (ns : String) (s v : Secret)
    (hget : clusterGet k ns s.name = .ok v) (hne : v.data ≠ s.data) :
    (updateSecret k ns s).2.2 =
      [Op.get ns s.name, Op.update v.nsName { v with data := s.data }] ∧
    (updateSecret k ns s).2.2.countP isUpdateOp = 1 ∧
    ({ v with data := s.data }).name = v.name ∧
    ({ v with data := s.data }).nsName = v.nsName ∧
    ({ v with data := s.data }).resourceVersion = v.resourceVersion ∧
    ({ v with data := s.data }).data = s.data := by
  have htrace : (updateSecret k ns s).2.2 =
      [Op.get ns s.name, Op.update v.nsName { v with data := s.data }] := by
    simp only [updateSecret]
    rw [hget]
    simp only [if_neg hne]
    rcases hu : clusterUpdate k v.nsName { v with data := s.data } with e | k' <;>
      simp [hu]
  refine ⟨htrace, ?_, rfl, rfl, rfl, rfl⟩
  rw [htrace]
  simp [List.countP_cons, isUpdateOp]

/-- Credential used by the C8 witness scenario. -/
def c8Data : AmazonECRAuthenticationData :=
  { expiration := 1700000000, Password := "secret"
  , Server := "123.dkr.ecr.eu-west-1.amazonaws.com", Username := "AWS" }

/-- A stale secret already persisted in namespace team-a. -/
def c8Old : Secret :=
  { name := "123.dkr.ecr.eu-west-1.amazonaws.com", nsName := "team-a"
  , data := [(".dockerconfigjson", "stale")], resourceVersion := "42" }

/-- Cluster for the C8 witness scenario. -/
def c8Cluster : Cluster :=
  { store := [(("team-a", "123.dkr.ecr.eu-west-1.amazonaws.com"), c8Old)]
  , createFault := none }

/-- Witness for C8 on a concrete stale secret. -/
theorem c8_update_preserves_other_fields_witness :
    (updateSecret c8Cluster "team-a" (secretForDockerRegistry c8Data)).2.2 =
      [Op.get "team-a" (secretForDockerRegistry c8Data).name,
       Op.update c8Old.nsName
         { c8Old with data := (secretForDockerRegistry c8Data).data }] ∧
    (updateSecret c8Cluster "team-a" (secretForDockerRegistry c8Data)).2.2.countP
        isUpdateOp = 1 ∧
    ({ c8Old with data := (secretForDockerRegistry c8Data).data }).name = c8Old.name ∧
    ({ c8Old with data := (secretForDockerRegistry c8Data).data }).nsName =
      c8Old.nsName ∧
    ({ c8Old with data := (secretForDockerRegistry c8Data).data }).resourceVersion =
      c8Old.resourceVersion ∧
    ({ c8Old with data := (secretForDockerRegistry c8Data).data }).data =
      (secretForDockerRegistry c8Data).data :=
  c8_update_preserves_other_fields c8Cluster "team-a" (secretForDockerRegistry c8Data)
    c8Old rfl (by decide)

/-- Claim C9: strings.Split splits the decoded token on every colon, so a
decoded value containing more than one colon yields more than two parts
and refresh rejects it with the malformed-token error instead of treating
it as username plus colon-containing password. -/
theorem c9_multi_colon_token_malformed (resp : TokenResponse) (a : AuthorizationData)
    (v : List Nat) (h1 : resp.authorizationData = [a])
    (h2 : base64Decode a.authorizationToken = some v)
    (h3 : 1 < v.count 58) :
    refresh resp = .error .malformedToken := by
  have hlen : (splitSep 58 v).length = v.count 58 + 1 := splitSep_length 58 v
  simp only [refresh, h1]
  exact refreshOne_not_two_parts h2 (by omega)

/-- Authorization record for the C9 witness: token base64 of AWS:pa:ss,
whose decoded value contains two colons. -/
def c9Auth : AuthorizationData :=
  { authorizationToken := "QVdTOnBhOnNz", expiresAt := 1700000000
  , proxyEndpoint := "123.dkr.ecr.eu-west-1.amazonaws.com" }

/-- Witness for C9: a password containing a colon is rejected. -/
theorem c9_multi_colon_token_malformed_witness :
    refresh { authorizationData := [c9Auth] } = .error .malformedToken :=
  c9_multi_colon_token_malformed { authorizationData := [c9Auth] } c9Auth
    (stringToBytes "AWS:pa:ss") rfl (by decide) (by decide)

/-- Claim C10: a successful refresh stores, as the credential's Server
(which also names the projected secret), the proxy endpoint with one
leading https:// prefix removed; an endpoint without that prefix is used
verbatim. -/
theorem c10_server_trims_https (resp : TokenResponse) (a : AuthorizationData)
    (d : AmazonECRAuthenticationData) (hl : resp.authorizationData = [a])
    (h : refresh resp = .ok d) :
    d.Server = trimPre a.proxyEndpoint "https://" ∧
    ("https://".data.isPrefixOf a.proxyEndpoint.data = true →
      d.Server = String.mk (a.proxyEndpoint.data.drop 8)) ∧
    ("https://".data.isPrefixOf a.proxyEndpoint.data = false →
      d.Server = a.proxyEndpoint) ∧
    (secretForDockerRegistry d).name = d.Server := by
  simp only [refresh, hl] at h
  rcases hdec : base64Decode a.authorizationToken with _ | v
  · rw [refreshOne_decode_none hdec] at h
    simp at h
  · rcases hsp : splitSep 58 v with _ | ⟨u, _ | ⟨p, _ | ⟨x, t⟩⟩⟩
    · rw [refreshOne_not_two_parts hdec (by rw [hsp]; simp)] at h
      simp at h
    · rw [refreshOne_not_two_parts hdec (by rw [hsp]; simp)] at h
      simp at h
    · rw [refreshOne_two_parts hdec hsp] at h
      simp only [Except.ok.injEq] at h
      subst h
      refine ⟨rfl, fun hp => ?_, fun hp => ?_, rfl⟩
      · simp only [trimPre, hp, if_true]
        rfl
      · simp only [trimPre, hp, Bool.false_eq_true, if_false]
    · rw [refreshOne_not_two_parts hdec (by rw [hsp]; simp)] at h
      simp at h

/-- Authorization record for the C10 witness: endpoint carrying the
https:// scheme prefix. -/
def c10Auth : AuthorizationData :=
  { authorizationToken := "QVdTOnNlY3JldA==", expiresAt := 1700000000
  , proxyEndpoint := "https://123.dkr.ecr.eu-west-1.amazonaws.com" }

/-- Token Source response for the C10 witness. -/
def c10Resp : TokenResponse := { authorizationData := [c10Auth] }

/-- Credential produced by refresh on the C10 witness response. -/
def c10Data : AmazonECRAuthenticationData :=
  { expiration := 1700000000, Password := "secret"
  , Server := "123.dkr.ecr.eu-west-1.amazonaws.com", Username := "AWS" }

/-- Witness for C10 at a concrete https:// endpoint. -/
theorem c10_server_trims_https_witness :
    c10Data.Server = trimPre c10Auth.proxyEndpoint "https://" ∧
    ("https://".data.isPrefixOf c10Auth.proxyEndpoint.data = true →
      c10Data.Server = String.mk (c10Auth.proxyEndpoint.data.drop 8)) ∧
    ("https://".data.isPrefixOf c10Auth.proxyEndpoint.data = false →
      c10Data.Server = c10Auth.proxyEndpoint) ∧
    (secretForDockerRegistry c10Data).name = c10Data.Server :=
  c10_server_trims_https c10Resp c10Auth c10Data rfl (by rfl)

/-- Claim C3: first, when the existing secret's payload already equals the
freshly projected payload, createOrUpdate only fetches and no-ops (no
update operation, cluster unchanged); second, reconciling the same
credential twice in a row issues no write in the second pass: on any
well-formed cluster whose Create calls are healthy, the second
createOrUpdateSecret run records only the failed create attempt and the
fetch, and leaves the cluster state unchanged. -/
theorem c3_idempotent_no_second_write (k : Cluster) (ns : String)
    (d : AmazonECRAuthenticationData) (hf : k.createFault = none)
    (hwf : StoreWF k.store) :
    (∀ v, clusterGet k ns (secretForDockerRegistry d).name = .ok v →
      v.data = (secretForDockerRegistry d).data →
      updateSecret k ns (secretForDockerRegistry d) =
        (.ok (), k, [Op.get ns (secretForDockerRegistry d).name])) ∧
    createOrUpdateSecret (createOrUpdateSecret k ns d).2.1 ns d =
      (.ok (), (createOrUpdateSecret k ns d).2.1,
       [Op.create ns (secretForDockerRegistry d),
        Op.get ns (secretForDockerRegistry d).name]) := by
  constructor
  · intro v hget heq
    simp [updateSecret, hget, heq]
  · rcases h0 : lookupStore k.store (ns, (secretForDockerRegistry d).name) with _ | v0
    · -- no secret yet: the first run creates it, the second no-ops
      simp [createOrUpdateSecret, clusterCreate, clusterGet, updateSecret, hf, h0,
        lookupStore_setStore_self]
    · -- a secret already exists under the key
      have hmem := lookupStore_mem _ _ _ h0
      obtain ⟨hns, hname⟩ := hwf _ hmem
      simp only at hns hname
      by_cases hd : v0.data = (secretForDockerRegistry d).data
      · simp [createOrUpdateSecret, clusterCreate, clusterGet, updateSecret, hf, h0, hd]
      · simp only [createOrUpdateSecret, clusterCreate, clusterGet, updateSecret, hf, h0]
        simp only [if_neg hd]
        rw [hns, hname]
        simp [clusterUpdate, hf, h0, lookupStore_setStore_self]

/-- Credential for the C3 witness scenario. -/
def c3Data : AmazonECRAuthenticationData :=
  { expiration := 1700000000, Password := "secret"
  , Server := "123.dkr.ecr.eu-west-1.amazonaws.com", Username := "AWS" }

/-- The projected secret as it sits in the cluster in namespace team-a,
with a payload already equal to the fresh projection. -/
def c3Stored : Secret := { secretForDockerRegistry c3Data with nsName := "team-a" }

/-- Cluster for the C3 witness scenario. -/
def c3Cluster : Cluster :=
  { store := [(("team-a", (secretForDockerRegistry c3Data).name), c3Stored)]
  , createFault := none }

/-- Witness for C3 on a cluster already holding the up-to-date secret. -/
theorem c3_idempotent_no_second_write_witness :
    updateSecret c3Cluster "team-a" (secretForDockerRegistry c3Data) =
      (.ok (), c3Cluster, [Op.get "team-a" (secretForDockerRegistry c3Data).name]) ∧
    createOrUpdateSecret (createOrUpdateSecret c3Cluster "team-a" c3Data).2.1
        "team-a" c3Data =
      (.ok (), (createOrUpdateSecret c3Cluster "team-a" c3Data).2.1,
       [Op.create "team-a" (secretForDockerRegistry c3Data),
        Op.get "team-a" (secretForDockerRegistry c3Data).name]) := by
  have h := c3_idempotent_no_second_write c3Cluster "team-a" c3Data rfl (by decide)
  exact ⟨h.1 c3Stored rfl rfl, h.2⟩

/-- Claim C4 as stated, at one response: refresh errors exactly when the
record count is not one or the decoded token does not split on colons into
exactly two parts. This Prop follows the spec words, for comparison with
the code, which has a third failure mode (base64 decoding). -/
def c4ClaimAsStated (resp : TokenResponse) : Prop :=
  (∃ e, refresh resp = .error e) ↔
    (resp.authorizationData.length ≠ 1 ∨
     ∃ a v, resp.authorizationData = [a] ∧
       base64Decode a.authorizationToken = some v ∧ (splitSep 58 v).length ≠ 2)

/-- Authorization record whose token is not valid base64. -/
def c4Auth : AuthorizationData :=
  { authorizationToken := "!", expiresAt := 1700000000
  , proxyEndpoint := "123.dkr.ecr.eu-west-1.amazonaws.com" }

/-- Token Source response refuting claim C4 as stated. -/
def c4Resp : TokenResponse := { authorizationData := [c4Auth] }

/-- Counterexample to claim C4 as stated: on a response with exactly one
record whose token fails base64 decoding, refresh returns the decode error
(neither of the two named error conditions holds), so the stated
"exactly when" equivalence is false at this input. -/
theorem c4_counterexample_decode_failure : ¬ c4ClaimAsStated c4Resp := by
  intro hiff
  have herr : ∃ e, refresh c4Resp = .error e := ⟨.base64DecodeError, rfl⟩
  rcases hiff.mp herr with h1 | ⟨a, v, ha, hv, _⟩
  · exact h1 rfl
  · have ha' : c4Auth = a := by simpa [c4Resp] using ha
    rw [← ha'] at hv
    have hnone : base64Decode c4Auth.authorizationToken = none := by decide
    rw [hnone] at hv
    exact Option.noConfusion hv

/-- Claim C4, amended: refresh returns an error exactly when the response
contains anything other than exactly one authorization record (the
unexpected-result-count error, carrying the count), or the token fails to
base64-decode (that decode error is returned as-is), or the decoded token
does not split on colons into exactly two parts (the malformed-token
error); otherwise it returns a credential. Stated as a characterisation of
each outcome of refresh. -/
theorem c4_refresh_error_characterisation (resp : TokenResponse) :
    ((∃ d, refresh resp = .ok d) ↔
      (∃ a, resp.authorizationData = [a] ∧
        ∃ v, base64Decode a.authorizationToken = some v ∧
          (splitSep 58 v).length = 2)) ∧
    ((∃ n, refresh resp = .error (.unexpectedResultCount n)) ↔
      resp.authorizationData.length ≠ 1) ∧
    ((refresh resp = .error .base64DecodeError) ↔
      (∃ a, resp.authorizationData = [a] ∧
        base64Decode a.authorizationToken = none)) ∧
    ((refresh resp = .error .malformedToken) ↔
      (∃ a, resp.authorizationData = [a] ∧
        ∃ v, base64Decode a.authorizationToken = some v ∧
          (splitSep 58 v).length ≠ 2)) := by
  rcases resp with ⟨ad⟩
  rcases ad with _ | ⟨a, _ | ⟨b, t⟩⟩
  · refine ⟨?_, ?_, ?_, ?_⟩ <;> simp [refresh]
  · rcases hdec : base64Decode a.authorizationToken with _ | v
    · have hre : refreshOne a = .error .base64DecodeError := refreshOne_decode_none hdec
      refine ⟨?_, ?_, ?_, ?_⟩ <;> simp [refresh, hre, hdec]
    · rcases hsp : splitSep 58 v with _ | ⟨u, _ | ⟨p, _ | ⟨x, t2⟩⟩⟩
      · have hre : refreshOne a = .error .malformedToken :=
          refreshOne_not_two_parts hdec (by rw [hsp]; simp)
        refine ⟨?_, ?_, ?_, ?_⟩ <;> simp [refresh, hre, hdec, hsp]
      · have hre : refreshOne a = .error .malformedToken :=
          refreshOne_not_two_parts hdec (by rw [hsp]; simp)
        refine ⟨?_, ?_, ?_, ?_⟩ <;> simp [refresh, hre, hdec, hsp]
      · have hre : refreshOne a = .ok
            { expiration := a.expiresAt
            , Server := trimPre a.proxyEndpoint "https://"
            , Password := bytesToString p
            , Username := bytesToString u } := refreshOne_two_parts hdec hsp
        refine ⟨?_, ?_, ?_, ?_⟩ <;> simp [refresh, hre, hdec, hsp]
      · have hre : refreshOne a = .error .malformedToken :=
          refreshOne_not_two_parts hdec (by rw [hsp]; simp)
        refine ⟨?_, ?_, ?_, ?_⟩ <;> simp [refresh, hre, hdec, hsp]
  · refine ⟨?_, ?_, ?_, ?_⟩ <;> simp [refresh]

end KubeEcrRefresher
